import Mathlib

/-!
Shallow embedding of `src/CopyQueue.pyw` (a hotkey-driven clipboard queue).

The program keeps four module-level globals — `CopyQueue` (a Python list of
strings), `Qcount` (an int), `placeCount` (an int), `QueueMode` (a bool) —
and reacts to five hotkeys through the handlers `fEnqueueCopyQueue`,
`fDequeueCopyQueue`, `fPauseProg`, `fNextInQueue`, `fPrevInQueue`.
We model the globals together with the OS clipboard text as a record
`QState`, and each handler as a function on it.  A Python statement that can
raise (list indexing out of range) is modelled with `Except`: the error
value carries the global state as it is at the moment the exception
propagates out of the handler (Python keeps the mutations already made).
-/

/-- The global state of `CopyQueue.pyw`: the four module globals plus the
text currently on the OS clipboard (the external resource the handlers read
and write). -/
structure QState where
  CopyQueue : List String
  Qcount : Int
  placeCount : Int
  QueueMode : Bool
  clipboard : String
  deriving DecidableEq, Repr

/-- Runtime errors: `IndexError` is Python's list-index-out-of-range;
`EmptyQueue` and `ClipboardUnavailable` are the spec's error taxonomy (§7). -/
inductive Err where
  | IndexError
  | EmptyQueue
  | ClipboardUnavailable
  deriving DecidableEq, Repr

/-- `fToggleQueueMode` (lines 11-17): flips the global `QueueMode`.
The Python function also returns the new value; every call site ignores it,
so we return only the state. -/
def fToggleQueueMode (s : QState) : QState :=
  if s.QueueMode = true then { s with QueueMode := false }
  else { s with QueueMode := true }

/-- `fAddCounter` (lines 20-23): `Qcount = Qcount + 1`. -/
def fAddCounter (s : QState) : QState :=
  { s with Qcount := s.Qcount + 1 }

/-- `fPlaceCountAddCounter` (lines 26-29): `placeCount = placeCount + 1`. -/
def fPlaceCountAddCounter (s : QState) : QState :=
  { s with placeCount := s.placeCount + 1 }

/-- `fPlaceCountSubtractCounter` (lines 32-35): `placeCount = placeCount - 1`. -/
def fPlaceCountSubtractCounter (s : QState) : QState :=
  { s with placeCount := s.placeCount - 1 }

/-- `fSubtractCounter` (lines 38-41): `Qcount = Qcount - 1`. -/
def fSubtractCounter (s : QState) : QState :=
  { s with Qcount := s.Qcount - 1 }

/-- Python list indexing `l[i]`: a negative index counts from the end;
`none` is an `IndexError`. -/
def pyGet (l : List String) (i : Int) : Option String :=
  let j : Int := if i < 0 then (l.length : Int) + i else i
  if 0 ≤ j then l.get? j.toNat else none

/-- `fEnqueueCopyQueue` (lines 44-53), the Ctrl+C handler: when `QueueMode`
holds it reads the clipboard (after a settle sleep, irrelevant here),
appends the text to `CopyQueue` and increments `Qcount`; otherwise it does
nothing.  The trailing `print` indexes `CopyQueue[len-1]`, which is always
in range right after the append, so the handler never raises. -/
def fEnqueueCopyQueue (s : QState) : QState :=
  if s.QueueMode = true then
    let data := s.clipboard
    fAddCounter { s with CopyQueue := s.CopyQueue ++ [data] }
  else s

/-- `fDequeueCopyQueue` (lines 56-69), the Ctrl+V handler, with the success
of the clipboard write made an explicit parameter (`writeOk`): when
`QueueMode` holds and `Qcount > 0` it evaluates `CopyQueue[0]` (an
`IndexError` leaves the state untouched, since the first use is inside a
`print` before any clipboard call), writes it to the clipboard
(`EmptyClipboard` then `SetClipboardText`; a failing write propagates with
the clipboard already emptied and the queue untouched), then `pop(0)`s the
head and decrements `Qcount`. -/
def fDequeueCopyQueueClip (writeOk : Bool) (s : QState) : Except (Err × QState) QState :=
  if s.QueueMode = true then
    if s.Qcount > 0 then
      match pyGet s.CopyQueue 0 with
      | none => .error (.IndexError, s)
      | some head =>
        if writeOk = true then
          let s1 := { s with clipboard := head }
          let s2 := { s1 with CopyQueue := s1.CopyQueue.tail }
          .ok (fSubtractCounter s2)
        else
          .error (.ClipboardUnavailable, { s with clipboard := "" })
    else .ok s
  else .ok s

/-- `fDequeueCopyQueue` as executed when the OS clipboard write succeeds. -/
def fDequeueCopyQueue (s : QState) : Except (Err × QState) QState :=
  fDequeueCopyQueueClip true s

/-- `fPauseProg` (lines 72-75), the Ctrl+B handler: toggles `QueueMode`
(the debounce sleep has no state effect). -/
def fPauseProg (s : QState) : QState :=
  fToggleQueueMode s

/-- `fNextInQueue` (lines 78-88), the Ctrl+Right handler: when `Qcount > 0`
and `placeCount < len(CopyQueue) - 1`, increments `placeCount` and writes
`CopyQueue[placeCount]` to the clipboard.  The write is `EmptyClipboard`
then `SetClipboardText(CopyQueue[placeCount])`, so if the indexing raises,
the exception propagates with the clipboard already emptied. -/
def fNextInQueue (s : QState) : Except (Err × QState) QState :=
  if s.Qcount > 0 ∧ s.placeCount < (s.CopyQueue.length : Int) - 1 then
    let s1 := fPlaceCountAddCounter s
    match pyGet s1.CopyQueue s1.placeCount with
    | none => .error (.IndexError, { s1 with clipboard := "" })
    | some v => .ok { s1 with clipboard := v }
  else .ok s

/-- `fPrevInQueue` (lines 90-98), the Ctrl+Left handler: when `Qcount > 0`
and `placeCount > 0`, decrements `placeCount` and writes
`CopyQueue[placeCount]` to the clipboard (same raise behaviour as
`fNextInQueue`). -/
def fPrevInQueue (s : QState) : Except (Err × QState) QState :=
  if s.Qcount > 0 ∧ s.placeCount > 0 then
    let s1 := fPlaceCountSubtractCounter s
    match pyGet s1.CopyQueue s1.placeCount with
    | none => .error (.IndexError, { s1 with clipboard := "" })
    | some v => .ok { s1 with clipboard := v }
  else .ok s

/-- Hotkey events.  `copy data` is Ctrl+C: the OS copy puts `data` on the
clipboard and the hotkey fires `fEnqueueCopyQueue` (the OS copy happens
whether or not the queue is paused — the hotkey does not suppress it). -/
inductive Ev where
  | copy (data : String)
  | paste
  | pause
  | next
  | prev
  deriving DecidableEq, Repr

/-- One hotkey event: the OS-side clipboard effect (for `copy`) followed by
the bound handler. -/
def step (s : QState) : Ev → Except (Err × QState) QState
  | .copy data => .ok (fEnqueueCopyQueue { s with clipboard := data })
  | .paste => fDequeueCopyQueue s
  | .pause => .ok (fPauseProg s)
  | .next => fNextInQueue s
  | .prev => fPrevInQueue s

/-- Run a sequence of hotkey events; stops at the first handler that
raises. -/
def runEvents : QState → List Ev → Except (Err × QState) QState
  | s, [] => .ok s
  | s, e :: es =>
    match step s e with
    | .ok s' => runEvents s' es
    | .error p => .error p

/-- The module-initialisation state (lines 5-8): empty queue, both counters
zero, `QueueMode = True`; the clipboard starts with whatever the OS holds —
we take `""`, and no claim depends on it. -/
def initState : QState :=
  { CopyQueue := [], Qcount := 0, placeCount := 0, QueueMode := true, clipboard := "" }

/-- A state is reachable when some hotkey sequence from program start
produces it with no handler raising. -/
def Reachable (s : QState) : Prop :=
  ∃ es : List Ev, runEvents initState es = .ok s

/-! ## Interpreter invariant -/

/-- The inductive invariant of the hotkey interpreter: the derived counter
`Qcount` always equals `len(CopyQueue)`, and `placeCount` is never
negative. -/
def QInv (s : QState) : Prop :=
  s.Qcount = (s.CopyQueue.length : Int) ∧ 0 ≤ s.placeCount

lemma qinv_initState : QInv initState := by
  constructor <;> simp [initState]

lemma pyGet_some (l : List String) (i : Int) (h0 : 0 ≤ i) (hl : i < (l.length : Int)) :
    ∃ v, pyGet l i = some v := by
  unfold pyGet
  have hni : ¬ i < 0 := by omega
  have hlt : i.toNat < l.length := by omega
  refine ⟨l.get ⟨i.toNat, hlt⟩, ?_⟩
  simp [hni, h0, List.get?_eq_get hlt]

lemma qinv_enqueue (s : QState) (h : QInv s) : QInv (fEnqueueCopyQueue s) := by
  obtain ⟨h1, h2⟩ := h
  unfold fEnqueueCopyQueue fAddCounter
  split
  · refine ⟨?_, h2⟩
    simp
    omega
  · exact ⟨h1, h2⟩

lemma dequeue_eq_cons (s : QState) (a : String) (l : List String)
    (hq : s.CopyQueue = a :: l) (hm : s.QueueMode = true) (hc : s.Qcount > 0) :
    fDequeueCopyQueue s = .ok { s with CopyQueue := l, Qcount := s.Qcount - 1, clipboard := a } := by
  unfold fDequeueCopyQueue fDequeueCopyQueueClip fSubtractCounter
  simp [hm, hc, hq, pyGet]

lemma qinv_dequeue {s s' : QState} (h : QInv s) (hs : fDequeueCopyQueue s = .ok s') : QInv s' := by
  obtain ⟨h1, h2⟩ := h
  by_cases hm : s.QueueMode = true
  · by_cases hc : s.Qcount > 0
    · cases hq : s.CopyQueue with
      | nil =>
        rw [hq] at h1
        simp at h1
        omega
      | cons a l =>
        rw [dequeue_eq_cons s a l hq hm hc] at hs
        cases hs
        refine ⟨?_, h2⟩
        simp [hq] at h1 ⊢
        omega
    · unfold fDequeueCopyQueue fDequeueCopyQueueClip at hs
      simp [hm, hc] at hs
      cases hs
      exact ⟨h1, h2⟩
  · unfold fDequeueCopyQueue fDequeueCopyQueueClip at hs
    simp [hm] at hs
    cases hs
    exact ⟨h1, h2⟩

lemma qinv_pause (s : QState) (h : QInv s) : QInv (fPauseProg s) := by
  obtain ⟨h1, h2⟩ := h
  unfold fPauseProg fToggleQueueMode
  split <;> exact ⟨h1, h2⟩

lemma qinv_next {s s' : QState} (h : QInv s) (hs : fNextInQueue s = .ok s') : QInv s' := by
  obtain ⟨h1, h2⟩ := h
  unfold fNextInQueue fPlaceCountAddCounter at hs
  split at hs
  · rename_i hg
    dsimp only at hs
    obtain ⟨v, hv⟩ := pyGet_some s.CopyQueue (s.placeCount + 1) (by omega) (by omega)
    rw [hv] at hs
    cases hs
    refine ⟨by simpa using h1, ?_⟩
    simp
    omega
  · cases hs
    exact ⟨h1, h2⟩

lemma qinv_prev {s s' : QState} (h : QInv s) (hs : fPrevInQueue s = .ok s') : QInv s' := by
  obtain ⟨h1, h2⟩ := h
  unfold fPrevInQueue fPlaceCountSubtractCounter at hs
  split at hs
  · rename_i hg
    dsimp only at hs
    cases hv : pyGet s.CopyQueue (s.placeCount - 1) with
    | none => rw [hv] at hs; cases hs
    | some v =>
      rw [hv] at hs
      cases hs
      refine ⟨by simpa using h1, ?_⟩
      simp
      omega
  · cases hs
    exact ⟨h1, h2⟩

lemma qinv_step {s s' : QState} {e : Ev} (h : QInv s) (hs : step s e = .ok s') : QInv s' := by
  cases e with
  | copy data =>
    cases hs
    exact qinv_enqueue _ ⟨h.1, h.2⟩
  | paste => exact qinv_dequeue h hs
  | pause =>
    cases hs
    exact qinv_pause _ h
  | next => exact qinv_next h hs
  | prev => exact qinv_prev h hs

lemma qinv_runEvents : ∀ (es : List Ev) (s s' : QState), QInv s → runEvents s es = .ok s' → QInv s'
  | [], s, s', h, hs => by
    cases hs
    exact h
  | e :: es, s, s', h, hs => by
    unfold runEvents at hs
    cases hstep : step s e with
    | ok t =>
      rw [hstep] at hs
      exact qinv_runEvents es t s' (qinv_step h hstep) hs
    | error p =>
      rw [hstep] at hs
      cases hs

lemma reachable_inv {s : QState} (h : Reachable s) : QInv s := by
  obtain ⟨es, hes⟩ := h
  exact qinv_runEvents es initState s qinv_initState hes

/-! ## Claims C1 and C2: cursor bounds -/

/-- C1 (amended), part of the proof kit: a successful `fEnqueueCopyQueue`
in running mode appends the clipboard text and bumps the counter. -/
lemma enqueue_eq (s : QState) (hm : s.QueueMode = true) :
    fEnqueueCopyQueue s =
      { s with CopyQueue := s.CopyQueue ++ [s.clipboard], Qcount := s.Qcount + 1 } := by
  unfold fEnqueueCopyQueue fAddCounter
  rw [if_pos hm]

/-- C1 (amended): in every reachable state the cursor is nonnegative; a
moving `fNextInQueue` lands with the cursor at most `Size() - 1`; a moving
`fPrevInQueue` keeps the cursor nonnegative and strictly decreases it; and
once `placeCount` is at (or beyond) the tail, `fNextInQueue` returns the
state unchanged, so repeated forward calls are no-ops indefinitely.  (The
claim's full invariant `placeCount ≤ Size() - 1` for non-empty reachable
states is false — see the counterexample.) -/
theorem C1_cursor_bounds (s s₁ s₂ : QState) (h : Reachable s) :
    0 ≤ s.placeCount ∧
    (fNextInQueue s = .ok s₁ →
      s₁ = s ∨ (0 ≤ s₁.placeCount ∧ s₁.placeCount ≤ (s₁.CopyQueue.length : Int) - 1)) ∧
    (fPrevInQueue s = .ok s₂ →
      s₂ = s ∨ (0 ≤ s₂.placeCount ∧ s₂.placeCount < s.placeCount)) ∧
    (¬ s.placeCount < (s.CopyQueue.length : Int) - 1 → fNextInQueue s = .ok s) := by
  obtain ⟨h1, h2⟩ := reachable_inv h
  refine ⟨h2, ?_, ?_, ?_⟩
  · intro hn
    unfold fNextInQueue fPlaceCountAddCounter at hn
    split at hn
    · rename_i hg
      dsimp only at hn
      obtain ⟨v, hv⟩ := pyGet_some s.CopyQueue (s.placeCount + 1) (by omega) (by omega)
      rw [hv] at hn
      cases hn
      right
      refine ⟨by dsimp only; omega, by dsimp only; omega⟩
    · cases hn
      left
      rfl
  · intro hp
    unfold fPrevInQueue fPlaceCountSubtractCounter at hp
    split at hp
    · rename_i hg
      dsimp only at hp
      cases hv : pyGet s.CopyQueue (s.placeCount - 1) with
      | none => rw [hv] at hp; cases hp
      | some v =>
        rw [hv] at hp
        cases hp
        right
        refine ⟨by dsimp only; omega, by dsimp only; omega⟩
    · cases hp
      left
      rfl
  · intro hnot
    unfold fNextInQueue
    rw [if_neg (by omega)]

theorem C1_cursor_bounds_witness :
    0 ≤ initState.placeCount ∧ fNextInQueue initState = .ok initState :=
  ⟨(C1_cursor_bounds initState initState initState ⟨[], rfl⟩).1,
   (C1_cursor_bounds initState initState initState ⟨[], rfl⟩).2.2.2 (by decide)⟩

/-- C1 refuted as stated: after Ctrl+C of "a", "b", "c", two Ctrl+Right
moves and one Ctrl+V, the queue still holds two items but the cursor is 2,
outside `[0, Size()-1] = [0, 1]` — the dequeue popped the head without
adjusting the cursor. -/
theorem C1_counterexample :
    runEvents initState [.copy "a", .copy "b", .copy "c", .next, .next, .paste] =
      .ok { CopyQueue := ["b", "c"], Qcount := 2, placeCount := 2,
            QueueMode := true, clipboard := "a" } ∧
    ({ CopyQueue := ["b", "c"], Qcount := 2, placeCount := 2,
       QueueMode := true, clipboard := "a" } : QState).CopyQueue ≠ [] ∧
    ¬ ({ CopyQueue := ["b", "c"], Qcount := 2, placeCount := 2,
         QueueMode := true, clipboard := "a" } : QState).placeCount ≤
        (({ CopyQueue := ["b", "c"], Qcount := 2, placeCount := 2,
            QueueMode := true, clipboard := "a" } : QState).CopyQueue.length : Int) - 1 := by
  refine ⟨rfl, by simp, by simp⟩

/-- C2 refuted by execution: after Ctrl+C of "a", "b", "c", two Ctrl+Right
moves, three Ctrl+V pops and a Ctrl+C of "d", the queue is `["d"]` with the
cursor at 2; Ctrl+Left passes its guard (`Qcount = 1 > 0`, `placeCount =
2 > 0`), decrements the cursor to 1 and evaluates `CopyQueue[1]` on a
one-element list — an uncaught `IndexError` escapes the handler. -/
theorem C2_prev_index_error :
    runEvents initState
        [.copy "a", .copy "b", .copy "c", .next, .next,
         .paste, .paste, .paste, .copy "d", .prev] =
      .error (.IndexError,
        { CopyQueue := ["d"], Qcount := 1, placeCount := 1,
          QueueMode := true, clipboard := "" }) := by
  rfl

/-! ## Claim C3: the derived counter -/

/-- A run of consecutive Ctrl+C events, the OS clipboard holding the listed
texts in turn. -/
def runCopiesFrom (s : QState) (ds : List String) : QState :=
  ds.foldl (fun t d => fEnqueueCopyQueue { t with clipboard := d }) s

lemma runCopiesFrom_spec : ∀ (ds : List String) (s : QState), s.QueueMode = true →
    (runCopiesFrom s ds).CopyQueue = s.CopyQueue ++ ds ∧
    (runCopiesFrom s ds).Qcount = s.Qcount + (ds.length : Int)
  | [], s, hm => by simp [runCopiesFrom]
  | d :: ds, s, hm => by
    have he := enqueue_eq { s with clipboard := d } (by simpa using hm)
    have hrec := runCopiesFrom_spec ds (fEnqueueCopyQueue { s with clipboard := d })
      (by rw [he]; simpa using hm)
    unfold runCopiesFrom at hrec ⊢
    rw [List.foldl_cons]
    refine ⟨?_, ?_⟩
    · rw [hrec.1, he]
      simp
    · rw [hrec.2, he]
      simp
      omega

lemma runEvents_copies : ∀ (ds : List String) (s : QState),
    runEvents s (ds.map Ev.copy) = .ok (runCopiesFrom s ds)
  | [], s => rfl
  | d :: ds, s => by
    show runEvents (fEnqueueCopyQueue { s with clipboard := d }) (ds.map Ev.copy) =
      .ok (runCopiesFrom s (d :: ds))
    unfold runCopiesFrom
    rw [List.foldl_cons]
    exact runEvents_copies ds _

/-- C3: in every reachable state the derived counter `Qcount` equals
`len(CopyQueue)`; every hotkey step that completes preserves this; and a run
of N Ctrl+C events from program start yields `Qcount = N` with the items in
insertion order (the first copied text at index 0). -/
theorem C3_count_sync (s s' : QState) (e : Ev) (ds : List String)
    (h : Reachable s) (hs : step s e = .ok s') :
    s.Qcount = (s.CopyQueue.length : Int) ∧
    s'.Qcount = (s'.CopyQueue.length : Int) ∧
    runEvents initState (ds.map Ev.copy) = .ok (runCopiesFrom initState ds) ∧
    (runCopiesFrom initState ds).CopyQueue = ds ∧
    (runCopiesFrom initState ds).Qcount = (ds.length : Int) := by
  have h0 := reachable_inv h
  have h1 := qinv_step h0 hs
  have h2 := runCopiesFrom_spec ds initState rfl
  refine ⟨h0.1, h1.1, runEvents_copies ds initState, ?_, ?_⟩
  · rw [h2.1]
    rfl
  · rw [h2.2]
    simp [initState]

theorem C3_count_sync_witness :
    initState.Qcount = (initState.CopyQueue.length : Int) ∧
    (fPauseProg initState).Qcount = ((fPauseProg initState).CopyQueue.length : Int) ∧
    runEvents initState (["a", "b"].map Ev.copy) = .ok (runCopiesFrom initState ["a", "b"]) ∧
    (runCopiesFrom initState ["a", "b"]).CopyQueue = ["a", "b"] ∧
    (runCopiesFrom initState ["a", "b"]).Qcount = ((["a", "b"] : List String).length : Int) :=
  C3_count_sync initState (fPauseProg initState) Ev.pause ["a", "b"] ⟨[], rfl⟩ rfl

/-! ## Claim C4: pause gating -/

/-- How a flipped `QueueMode` transports through a navigation handler's
outcome: the navigation handlers never read or write the flag, so it rides
along unchanged both when the handler completes and when it raises. -/
def mapMode (b : Bool) : Except (Err × QState) QState → Except (Err × QState) QState
  | .ok t => .ok { t with QueueMode := b }
  | .error (e, t) => .error (e, { t with QueueMode := b })

/-- C4: while paused (`QueueMode = false`) the Ctrl+C handler neither reads
the clipboard nor appends (the state is returned untouched) and the Ctrl+V
handler neither pops nor writes (likewise untouched); and the navigation
handlers behave identically whatever the flag — their outcome on a state
with the flag replaced is the outcome on the original state with the flag
replaced. -/
theorem C4_pause_gating (s t : QState) (b : Bool) (h : s.QueueMode = false) :
    fEnqueueCopyQueue s = s ∧
    fDequeueCopyQueue s = .ok s ∧
    fNextInQueue { t with QueueMode := b } = mapMode b (fNextInQueue t) ∧
    fPrevInQueue { t with QueueMode := b } = mapMode b (fPrevInQueue t) := by
  refine ⟨?_, ?_, ?_, ?_⟩
  · unfold fEnqueueCopyQueue
    rw [if_neg (by simp [h])]
  · unfold fDequeueCopyQueue fDequeueCopyQueueClip
    rw [if_neg (by simp [h])]
  · unfold fNextInQueue fPlaceCountAddCounter
    dsimp only
    by_cases hg : t.Qcount > 0 ∧ t.placeCount < (t.CopyQueue.length : Int) - 1
    · rw [if_pos hg, if_pos hg]
      cases hv : pyGet t.CopyQueue (t.placeCount + 1) <;> simp [mapMode, hv]
    · rw [if_neg hg, if_neg hg]
      simp [mapMode]
  · unfold fPrevInQueue fPlaceCountSubtractCounter
    dsimp only
    by_cases hg : t.Qcount > 0 ∧ t.placeCount > 0
    · rw [if_pos hg, if_pos hg]
      cases hv : pyGet t.CopyQueue (t.placeCount - 1) <;> simp [mapMode, hv]
    · rw [if_neg hg, if_neg hg]
      simp [mapMode]

theorem C4_pause_gating_witness :
    fEnqueueCopyQueue ⟨["q"], 1, 0, false, "w"⟩ = ⟨["q"], 1, 0, false, "w"⟩ ∧
    fDequeueCopyQueue ⟨["q"], 1, 0, false, "w"⟩ = .ok ⟨["q"], 1, 0, false, "w"⟩ ∧
    fNextInQueue { (⟨["a", "b"], 2, 0, true, "z"⟩ : QState) with QueueMode := false } =
      mapMode false (fNextInQueue ⟨["a", "b"], 2, 0, true, "z"⟩) ∧
    fPrevInQueue { (⟨["a", "b"], 2, 0, true, "z"⟩ : QState) with QueueMode := false } =
      mapMode false (fPrevInQueue ⟨["a", "b"], 2, 0, true, "z"⟩) :=
  C4_pause_gating ⟨["q"], 1, 0, false, "w"⟩ ⟨["a", "b"], 2, 0, true, "z"⟩ false rfl

/-! ## Claims C5, C6, C7: PopFront, scenario B, round-trip -/

/-- Modelled from the spec: `QueueState.PopFront()` (§4.1) — "removes and
returns the head element.  Fails with `EmptyQueue` if `items` is empty …
Side effect: size decreases by 1."  The repository has no standalone
PopFront operation with an `EmptyQueue` failure; `fDequeueCopyQueue`
inlines a guarded pop (`CopyQueue.pop(0)` plus `fSubtractCounter` behind a
`Qcount > 0` check), so the operation here follows the spec's words, the
failing call returning the state untouched. -/
def PopFront (s : QState) : Except Err String × QState :=
  match s.CopyQueue with
  | [] => (.error .EmptyQueue, s)
  | head :: rest => (.ok head, fSubtractCounter { s with CopyQueue := rest })

/-- C5: `PopFront` on an empty queue fails with `EmptyQueue` and leaves the
whole state (items, cursor, counter, flag, clipboard) unchanged; on a
non-empty queue it returns the head, keeps cursor and flag, and the size
drops by exactly one. -/
theorem C5_popfront (s : QState) (hd : String) (rest : List String) :
    (s.CopyQueue = [] → PopFront s = (.error .EmptyQueue, s)) ∧
    (s.CopyQueue = hd :: rest →
      (PopFront s).1 = .ok hd ∧
      (PopFront s).2.CopyQueue = rest ∧
      (PopFront s).2.Qcount = s.Qcount - 1 ∧
      (PopFront s).2.placeCount = s.placeCount ∧
      (PopFront s).2.QueueMode = s.QueueMode ∧
      ((PopFront s).2.CopyQueue.length : Int) = (s.CopyQueue.length : Int) - 1) := by
  constructor
  · intro he
    simp [PopFront, he]
  · intro hc
    simp [PopFront, hc, fSubtractCounter]

theorem C5_popfront_witness :
    (PopFront ⟨[], 0, 0, true, "c"⟩ = (.error .EmptyQueue, ⟨[], 0, 0, true, "c"⟩)) ∧
    (PopFront ⟨["h", "i"], 2, 1, false, "c"⟩).1 = .ok "h" ∧
    (PopFront ⟨["h", "i"], 2, 1, false, "c"⟩).2.CopyQueue = ["i"] ∧
    (PopFront ⟨["h", "i"], 2, 1, false, "c"⟩).2.Qcount = 1 :=
  ⟨(C5_popfront ⟨[], 0, 0, true, "c"⟩ "h" []).1 rfl,
   ((C5_popfront ⟨["h", "i"], 2, 1, false, "c"⟩ "h" ["i"]).2 rfl).1,
   ((C5_popfront ⟨["h", "i"], 2, 1, false, "c"⟩ "h" ["i"]).2 rfl).2.1,
   ((C5_popfront ⟨["h", "i"], 2, 1, false, "c"⟩ "h" ["i"]).2 rfl).2.2.1⟩

/-- C6 (spec §8 scenario B): from `items = ["a","b","c"]`, `cursor = 0`
(any pause flag, any clipboard), the first Ctrl+Right moves the cursor to 1
and puts "b" on the clipboard, the second moves it to 2 and puts "c", and a
third is a silent no-move: same state back, no clipboard write. -/
theorem C6_scenarioB (b : Bool) (c : String) :
    fNextInQueue ⟨["a", "b", "c"], 3, 0, b, c⟩ = .ok ⟨["a", "b", "c"], 3, 1, b, "b"⟩ ∧
    fNextInQueue ⟨["a", "b", "c"], 3, 1, b, "b"⟩ = .ok ⟨["a", "b", "c"], 3, 2, b, "c"⟩ ∧
    fNextInQueue ⟨["a", "b", "c"], 3, 2, b, "c"⟩ = .ok ⟨["a", "b", "c"], 3, 2, b, "c"⟩ := by
  refine ⟨rfl, rfl, rfl⟩

/-- C7: from an empty queue in running mode (any cursor value `p`), a
Ctrl+C that reads `x` yields the one-element queue `[x]`, and the following
Ctrl+V writes exactly `x` back to the clipboard and empties the queue, size
0; the spec-level `PopFront` likewise returns `x`. -/
theorem C7_roundtrip (x : String) (p : Int) :
    fEnqueueCopyQueue ⟨[], 0, p, true, x⟩ = ⟨[x], 1, p, true, x⟩ ∧
    (∀ c : String, fDequeueCopyQueue ⟨[x], 1, p, true, c⟩ = .ok ⟨[], 0, p, true, x⟩) ∧
    (∀ c : String, (PopFront ⟨[x], 1, p, true, c⟩).1 = .ok x) ∧
    fDequeueCopyQueue (fEnqueueCopyQueue ⟨[], 0, p, true, x⟩) = .ok ⟨[], 0, p, true, x⟩ := by
  refine ⟨?_, fun c => ?_, fun c => rfl, ?_⟩
  · simp [fEnqueueCopyQueue, fAddCounter]
  · simp [fDequeueCopyQueue, fDequeueCopyQueueClip, pyGet, fSubtractCounter]
  · simp [fEnqueueCopyQueue, fAddCounter, fDequeueCopyQueue, fDequeueCopyQueueClip,
      pyGet, fSubtractCounter]

/-! ## Claims C8, C9, C10: frame conditions -/

/-- The outcome of a handler left the queue, the derived counter and the
pause flag exactly as in `s` — whether the handler completed or raised. -/
def SameQueueCtr (s : QState) : Except (Err × QState) QState → Prop
  | .ok t => t.CopyQueue = s.CopyQueue ∧ t.Qcount = s.Qcount ∧ t.QueueMode = s.QueueMode
  | .error p => p.2.CopyQueue = s.CopyQueue ∧ p.2.Qcount = s.Qcount ∧ p.2.QueueMode = s.QueueMode

/-- The outcome of a handler left the cursor exactly as in `s`. -/
def SamePlace (s : QState) : Except (Err × QState) QState → Prop
  | .ok t => t.placeCount = s.placeCount
  | .error p => p.2.placeCount = s.placeCount

/-- C8: on any state, the navigation handlers never touch the queue, the
derived counter or the pause flag — at most the cursor and the clipboard
change (also on the raising path); and (spec §8 scenario D) from
`items = ["x"]`, `cursor = 0`, Ctrl+Left is a silent no-move: same state
back, no clipboard write. -/
theorem C8_nav_frame (s : QState) (b : Bool) (c : String) :
    SameQueueCtr s (fNextInQueue s) ∧
    SameQueueCtr s (fPrevInQueue s) ∧
    fPrevInQueue ⟨["x"], 1, 0, b, c⟩ = .ok ⟨["x"], 1, 0, b, c⟩ := by
  refine ⟨?_, ?_, rfl⟩
  · unfold fNextInQueue fPlaceCountAddCounter
    split
    · dsimp only
      cases hv : pyGet s.CopyQueue (s.placeCount + 1) <;>
        simp [SameQueueCtr, hv]
    · simp [SameQueueCtr]
  · unfold fPrevInQueue fPlaceCountSubtractCounter
    split
    · dsimp only
      cases hv : pyGet s.CopyQueue (s.placeCount - 1) <;>
        simp [SameQueueCtr, hv]
    · simp [SameQueueCtr]

/-- C9 (implicit in the code): the Ctrl+V handler never adjusts the cursor
— whenever it pops the head (and equally when it does nothing or raises),
`placeCount` keeps its numeric value, even though the item it pointed at
has shifted or vanished. -/
theorem C9_dequeue_cursor (s : QState) : SamePlace s (fDequeueCopyQueue s) := by
  unfold fDequeueCopyQueue fDequeueCopyQueueClip
  split
  · split
    · cases hv : pyGet s.CopyQueue 0 <;> simp [SamePlace, hv, fSubtractCounter]
    · simp [SamePlace]
  · simp [SamePlace]

/-- C10 (implicit in the code): in the Ctrl+V handler the pop and the
counter decrement sit after the clipboard write, so when the write raises
(`ClipboardUnavailable`, here `writeOk = false`) the handler propagates the
error with the queue, the counter — and in fact the cursor and the flag —
untouched; only the clipboard was already emptied. -/
theorem C10_dequeue_atomic (s : QState) (hm : s.QueueMode = true)
    (hc : s.Qcount > 0) (hq : s.CopyQueue ≠ []) :
    fDequeueCopyQueueClip false s =
      .error (.ClipboardUnavailable, { s with clipboard := "" }) ∧
    SameQueueCtr s (fDequeueCopyQueueClip false s) ∧
    SamePlace s (fDequeueCopyQueueClip false s) := by
  obtain ⟨a, l, hcq⟩ := List.exists_cons_of_ne_nil hq
  have heq : fDequeueCopyQueueClip false s =
      .error (.ClipboardUnavailable, { s with clipboard := "" }) := by
    unfold fDequeueCopyQueueClip
    rw [if_pos hm, if_pos hc, hcq]
    rfl
  refine ⟨heq, ?_, ?_⟩ <;> rw [heq] <;> simp [SameQueueCtr, SamePlace]

theorem C10_dequeue_atomic_witness :
    fDequeueCopyQueueClip false ⟨["a"], 1, 0, true, "z"⟩ =
      .error (.ClipboardUnavailable, { (⟨["a"], 1, 0, true, "z"⟩ : QState) with clipboard := "" }) ∧
    SameQueueCtr ⟨["a"], 1, 0, true, "z"⟩ (fDequeueCopyQueueClip false ⟨["a"], 1, 0, true, "z"⟩) ∧
    SamePlace ⟨["a"], 1, 0, true, "z"⟩ (fDequeueCopyQueueClip false ⟨["a"], 1, 0, true, "z"⟩) :=
  C10_dequeue_atomic ⟨["a"], 1, 0, true, "z"⟩ rfl (by decide) (by decide)
